import Mathlib

/-!
Shallow embedding of the silbon-bestsellers-api core (query route `src/unnamed/part_004`,
snapshot builder `src/app/routes/snapshot.ts`, channel-aware query route
`src/app/routes/api.bestsellers.ts`, per-segment snapshot route
`src/app/routes/api.bestsellers-snapshot.ts`).

Modelling conventions:
- JS strings are Lean `String`; `toLowerCase`/NFD-diacritic stripping is modelled for the
  ASCII range plus the Spanish accented characters that occur in the source keyword
  tables (a/e/i/o/u with acute, u-dieresis, n-tilde); other code points pass through.
- JS `Set` values are Lean lists with first-insertion order and membership via `contains`
  (the source only iterates, sorts or tests membership on these sets).
- `fetch`/Redis/GraphQL I/O is replaced by explicit environment fields (pure functions
  and result lists); a thrown upstream error is an `Option.none` outcome.
- JS numbers holding integers are `Int` (so `parseInt` results, `Math.min`, negative
  `slice` ends behave as in the source); quantities are `Nat`.
-/

/- ===================== tokens & normalisation (part_004 `norm`/`tokenize`) ===================== -/

/-- JS `String.prototype.toLowerCase` restricted to the characters the source uses:
ASCII letters plus accented Spanish letters. -/
def jsLower (c : Char) : Char :=
  if c = 'Á' then 'á' else if c = 'É' then 'é' else if c = 'Í' then 'í'
  else if c = 'Ó' then 'ó' else if c = 'Ú' then 'ú' else if c = 'Ü' then 'ü'
  else if c = 'Ñ' then 'ñ' else c.toLower

/-- Lower-case a whole string as JS `toLowerCase` does (on the modelled character range). -/
def jsLowerStr (s : String) : String := String.mk (s.toList.map jsLower)

/-- JS `String.prototype.trim` (whitespace stripped from both ends). -/
def strTrim (s : String) : String :=
  String.mk (((s.toList.dropWhile Char.isWhitespace).reverse.dropWhile
    Char.isWhitespace).reverse)

/-- Whether the first character list leads (is an initial run of) the second. -/
def leadsWith : List Char → List Char → Bool
  | [], _ => true
  | _ :: _, [] => false
  | a :: as, b :: bs => a == b && leadsWith as bs

/-- `s.startsWith(pre)`. -/
def strStarts (s pre : String) : Bool :=
  leadsWith pre.toList s.toList

/-- `s.slice(n)` on code points: drop the first `n` characters. -/
def strDrop (s : String) (n : Nat) : String := String.mk (s.toList.drop n)

/-- Split a character list at every occurrence of `sep` (JS `split` with a one-character
separator: `"a,,b" ↦ ["a","","b"]`, `"" ↦ [""]`). -/
def splitChar (sep : Char) : List Char → List (List Char)
  | [] => [[]]
  | c :: rest =>
    if c = sep then [] :: splitChar sep rest
    else
      match splitChar sep rest with
      | t :: ts => (c :: t) :: ts
      | [] => [[c]]

/-- `s.split(",")`. -/
def strSplitComma (s : String) : List String := (splitChar ',' s.toList).map String.mk

/-- Effect of `normalize("NFD").replace(/[̀-ͯ]/g, "")` on a lower-cased string:
each accented letter decomposes into its base letter plus a combining mark, which is
then removed. -/
def deaccent (c : Char) : Char :=
  if c = 'á' then 'a' else if c = 'é' then 'e' else if c = 'í' then 'i'
  else if c = 'ó' then 'o' else if c = 'ú' then 'u' else if c = 'ü' then 'u'
  else if c = 'ñ' then 'n' else c

/-- part_004 `norm`: `s.toLowerCase().normalize("NFD").replace(/[̀-ͯ]/g,"").trim()`. -/
def normQ (s : String) : String :=
  strTrim (String.mk ((s.toList.map jsLower).map deaccent))

/-- Characters retained by the token splitter `/[^a-z0-9:]+/`. -/
def isTokChar (c : Char) : Bool :=
  ('a' ≤ c && c ≤ 'z') || ('0' ≤ c && c ≤ '9') || c = ':'

/-- Split a character list on maximal runs of non-token characters, dropping empties
(the `.filter(Boolean)` of the source). `acc` holds the current token reversed. -/
def tokensAux : List Char → List Char → List String
  | [], acc => if acc.isEmpty then [] else [String.mk acc.reverse]
  | c :: rest, acc =>
    if isTokChar c then tokensAux rest (c :: acc)
    else if acc.isEmpty then tokensAux rest []
    else String.mk acc.reverse :: tokensAux rest []

/-- part_004 `tokenize`: `norm(s).split(/[^a-z0-9:]+/).filter(Boolean)`. -/
def tokenizeQ (s : String) : List String := tokensAux (normQ s).toList []

/-- snapshot.ts token splitter: `(v||"").toLowerCase().split(/[^a-z0-9:]+/).filter(Boolean)`
(no diacritic stripping in that file). -/
def tokenizeSnap (s : String) : List String := tokensAux (jsLowerStr s).toList []

/-- part_004 `tokenSet` on a tag array: union of `tokenize` over all entries (a JS `Set`,
queried only through `has`, is modelled as the concatenated list). -/
def tokenSetQ (tags : List String) : List String := (tags.map tokenizeQ).flatten

/-- snapshot.ts `tokenSet` on a tag array. -/
def tokenSetSnap (tags : List String) : List String := (tags.map tokenizeSnap).flatten

/-- part_004 `hasAnyToken`: some needle, normalised, occurs in the token set. -/
def hasAnyTokenQ (hay : List String) (needles : List String) : Bool :=
  needles.any (fun n => hay.contains (normQ n))

/-- snapshot.ts `hasAnyToken`: needles are only lower-cased there. -/
def hasAnyTokenSnap (hay : List String) (needles : List String) : Bool :=
  needles.any (fun n => hay.contains (jsLowerStr n))

/- ===================== segments ===================== -/

/-- `type Segment = "man" | "woman" | "teens" | "kids"` (part_004 / snapshot.ts). -/
inductive Segment where
  | man | woman | teens | kids
deriving DecidableEq, Repr, Fintype

/-- The string name of a segment (its TS literal). -/
def segName : Segment → String
  | .man => "man" | .woman => "woman" | .teens => "teens" | .kids => "kids"

/-- Interpret the value of an explicit `gender:<v>` tag as a `Segment`, as the cast
`genderTag.replace("gender:", "") as Segment` followed by `segments.has(...)` does:
a value outside the vocabulary never matches. -/
def segOfString (s : String) : Option Segment :=
  if s = "man" then some .man else if s = "woman" then some .woman
  else if s = "teens" then some .teens else if s = "kids" then some .kids
  else none

/-- Per-segment keyword lists (`TOK` in part_004 / snapshot.ts / api.bestsellers-snapshot.ts). -/
def TOKman : List String :=
  ["gender:man", "gender:men", "man", "men", "caballero", "mens", "hombre", "hombres"]
def TOKwoman : List String :=
  ["gender:woman", "woman", "women", "mujer", "mujeres", "dama", "womens", "ladies", "fem"]
def TOKteens : List String :=
  ["segment:teens", "teen", "teens", "juvenil", "adolesc"]
def TOKkids : List String :=
  ["segment:kids", "kid", "kids", "niño", "nino", "niña", "nina", "infantil", "children", "child"]

/- ===================== products, orders ===================== -/

/-- Product metadata carried on a line item (`product { id handle tags productType }`);
`tags`/`productType` are optional in the source and defaulted (`p.tags || []`,
`p.productType || ""`) before use, so they are plain fields here. -/
structure Product where
  id : String
  handle : String
  tags : List String
  productType : String
deriving DecidableEq, Repr

/-- A line item: quantity plus a nullable product reference. -/
structure LineItem where
  quantity : Nat
  product : Option Product
deriving DecidableEq, Repr

/-- An upstream order. part_004 and snapshot.ts never request `sourceName`/`cancelledAt`;
api.bestsellers.ts does. One record type carries both nullable fields; the pipelines
that do not request them simply never read them. -/
structure Order where
  sourceName : Option String
  cancelledAt : Option String
  lineItems : List LineItem
deriving DecidableEq, Repr

/-- First explicit `gender:` tag of a product:
`(p.tags || []).map(t => t.toLowerCase().trim()).find(t => t.startsWith("gender:"))`. -/
def genderTagOf (tags : List String) : Option String :=
  (tags.map (fun t => strTrim (jsLowerStr t))).find? (fun t => strStarts t "gender:")

/-- `okMan`-style heuristic test of one keyword list against a product, part_004 flavour. -/
def okTokQ (p : Product) (needles : List String) : Bool :=
  hasAnyTokenQ (tokenSetQ p.tags) needles || hasAnyTokenQ (tokenizeQ p.productType) needles

/-- `okMan`-style heuristic test of one keyword list against a product, snapshot.ts flavour. -/
def okTokSnap (p : Product) (needles : List String) : Bool :=
  hasAnyTokenSnap (tokenSetSnap p.tags) needles ||
    hasAnyTokenSnap (tokenizeSnap p.productType) needles

/-- part_004 `passSegments` (identical in api.bestsellers-snapshot.ts): man/woman are
exclusive with an early return; teens/kids checks run only when that early return was
not taken. -/
def passSegmentsQ (p : Product) (segments : List Segment) : Bool :=
  if segments.isEmpty then true
  else
    match genderTagOf p.tags with
    | some g =>
      match segOfString (strDrop g 7) with
      | some seg => segments.contains seg
      | none => false
    | none =>
      let okMan := okTokQ p TOKman
      let okWoman := okTokQ p TOKwoman
      let okTeens := okTokQ p TOKteens
      let okKids := okTokQ p TOKkids
      let wantsMan := segments.contains Segment.man
      let wantsWoman := segments.contains Segment.woman
      if wantsMan && !wantsWoman then okMan && !okWoman
      else if wantsWoman && !wantsMan then okWoman && !okMan
      else if wantsMan && wantsWoman && (okMan || okWoman) then true
      else if segments.contains Segment.teens && okTeens then true
      else if segments.contains Segment.kids && okKids then true
      else false

/-- snapshot.ts `passSegments`: the man/woman result lands in a mutable `ok`, and when
`ok` is still false the teens/kids checks may set it, so teens/kids are OR-combined
independently of a failed man/woman exclusivity test. -/
def passSegmentsSnap (p : Product) (segments : List Segment) : Bool :=
  if segments.isEmpty then true
  else
    match genderTagOf p.tags with
    | some g =>
      match segOfString (strDrop g 7) with
      | some seg => segments.contains seg
      | none => false
    | none =>
      let okMan := okTokSnap p TOKman
      let okWoman := okTokSnap p TOKwoman
      let okTeens := okTokSnap p TOKteens
      let okKids := okTokSnap p TOKkids
      let wantsMan := segments.contains Segment.man
      let wantsWoman := segments.contains Segment.woman
      let wantsTeens := segments.contains Segment.teens
      let wantsKids := segments.contains Segment.kids
      let ok0 :=
        if wantsMan && !wantsWoman then okMan && !okWoman
        else if wantsWoman && !wantsMan then okWoman && !okMan
        else if wantsMan && wantsWoman then okMan || okWoman
        else false
      if ok0 then true
      else (wantsTeens && okTeens) || (wantsKids && okKids)

/- ===================== api.bestsellers.ts classifier (with "girl") ===================== -/

/-- `type Segment = "man" | "woman" | "teens" | "kids" | "girl"` (api.bestsellers.ts). -/
inductive SegA where
  | man | woman | teens | kids | girl
deriving DecidableEq, Repr

/-- api.bestsellers.ts cast of an explicit gender-tag value to its segment type. -/
def segAOfString (s : String) : Option SegA :=
  if s = "man" then some .man else if s = "woman" then some .woman
  else if s = "teens" then some .teens else if s = "kids" then some .kids
  else if s = "girl" then some .girl else none

/-- api.bestsellers.ts `TOK.kids` (differs from the other files). -/
def TOKkidsA : List String :=
  ["segment:kids", "kids", "kid", "niño", "nino", "niños", "ninos", "boy", "boys"]

/-- api.bestsellers.ts `TOK.girl`. -/
def TOKgirl : List String :=
  ["segment:girl", "girl", "girls", "niña", "nina", "niñas", "ninas"]

/-- api.bestsellers.ts `passSegments`: same early-return structure as part_004, with the
extra `girl` segment. -/
def passSegmentsA (p : Product) (segments : List SegA) : Bool :=
  if segments.isEmpty then true
  else
    match genderTagOf p.tags with
    | some g =>
      match segAOfString (strDrop g 7) with
      | some seg => segments.contains seg
      | none => false
    | none =>
      let okMan := okTokQ p TOKman
      let okWoman := okTokQ p TOKwoman
      let okTeens := okTokQ p TOKteens
      let okKids := okTokQ p TOKkidsA
      let okGirl := okTokQ p TOKgirl
      let wantsMan := segments.contains SegA.man
      let wantsWoman := segments.contains SegA.woman
      if wantsMan && !wantsWoman then okMan && !okWoman
      else if wantsWoman && !wantsMan then okWoman && !okMan
      else if wantsMan && wantsWoman && (okMan || okWoman) then true
      else if segments.contains SegA.teens && okTeens then true
      else if segments.contains SegA.kids && okKids then true
      else if segments.contains SegA.girl && okGirl then true
      else false

/- ===================== aggregation ===================== -/

/-- `qtyByProductId.set(id, (qtyByProductId.get(id) || 0) + q)` on an insertion-ordered
association list (a JS `Map`). -/
def bump (m : List (String × Nat)) (id : String) (q : Nat) : List (String × Nat) :=
  match m with
  | [] => [(id, q)]
  | (k, v) :: rest => if k = id then (k, v + q) :: rest else (k, v) :: bump rest id q

/-- The part_004 live aggregation loop over the fetched orders: every line item with a
non-null product that passes `passSegments` bumps the per-product total. part_004 never
requests or consults `cancelledAt`/`sourceName`. -/
def aggQ (segments : List Segment) (orders : List Order) : List (String × Nat) :=
  orders.foldl
    (fun m o =>
      o.lineItems.foldl
        (fun m li =>
          match li.product with
          | none => m
          | some p => if passSegmentsQ p segments then bump m p.id li.quantity else m)
        m)
    []

/-- snapshot.ts step (1): materialise every line item with a non-null product from the
single paginated order scan (`allLineItems`). -/
def collectItems (orders : List Order) : List (Nat × Product) :=
  orders.foldl
    (fun acc o =>
      acc ++ o.lineItems.filterMap (fun li => li.product.map (fun p => (li.quantity, p))))
    []

/-- snapshot.ts `buildAndSaveSnapshotFor` aggregation over the pre-fetched line items. -/
def aggSnap (segs : List Segment) (items : List (Nat × Product)) : List (String × Nat) :=
  items.foldl
    (fun m qp => if passSegmentsSnap qp.2 segs then bump m qp.2.id qp.1 else m)
    []

/-- `hay.includes(sub)` for strings. -/
def subIn (sub : List Char) : List Char → Bool
  | [] => sub.isEmpty
  | c :: rest => leadsWith sub (c :: rest) || subIn sub rest

/-- `s.includes(t)` for strings. -/
def strIncludes (s t : String) : Bool := subIn t.toList s.toList

/-- api.bestsellers.ts `isOnlineSource`: an absent source label passes (fail-open), `pos`
is rejected, and web/online/checkout/shopify are accepted. -/
def isOnlineSource (sourceName : Option String) : Bool :=
  let s := strTrim (jsLowerStr (sourceName.getD ""))
  if s = "" then true
  else if strIncludes s "pos" then false
  else strIncludes s "web" || strIncludes s "online" ||
       strIncludes s "checkout" || strIncludes s "shopify"

/-- Body of the api.bestsellers.ts aggregation loop for one order: skip it when
cancelled, skip it when the online channel filter is active and rejects its source,
otherwise classify and accumulate each of its line items. -/
def aggChanStep (segments : List SegA) (channelFilter : String)
    (m : List (String × Nat)) (o : Order) : List (String × Nat) :=
  if o.cancelledAt.isSome then m
  else if channelFilter = "online" && !isOnlineSource o.sourceName then m
  else
    o.lineItems.foldl
      (fun m li =>
        match li.product with
        | none => m
        | some p => if passSegmentsA p segments then bump m p.id li.quantity else m)
      m

/-- api.bestsellers.ts live aggregation loop over the fetched orders. -/
def aggChan (segments : List SegA) (channelFilter : String) (orders : List Order) :
    List (String × Nat) :=
  orders.foldl (aggChanStep segments channelFilter) []

/- ===================== ranking ===================== -/

/-- Stable descending insertion by quantity: an element goes in front of the first entry
whose quantity does not exceed it. Composed over the list this is exactly the (stable)
JS `sort((a, b) => b[1] - a[1])`. -/
def insDesc (x : String × Nat) : List (String × Nat) → List (String × Nat)
  | [] => [x]
  | y :: ys => if y.2 ≤ x.2 then x :: y :: ys else y :: insDesc x ys

/-- Stable descending sort by quantity (JS `Array.prototype.sort` with `b[1] - a[1]`). -/
def sortDesc : List (String × Nat) → List (String × Nat)
  | [] => []
  | x :: xs => insDesc x (sortDesc xs)

/-- `l.slice(0, e)` for an integer end index: non-negative ends truncate, negative ends
count from the right (clamped at zero). -/
def sliceTo (l : List α) (e : Int) : List α :=
  if 0 ≤ e then l.take e.toNat else l.take ((l.length : Int) + e).toNat

/- ===================== cache keys ===================== -/

/-- Lexicographic (UTF-16 code unit) order on strings, the default JS sort comparator
for the ASCII segment names involved. -/
def strLtB : List Char → List Char → Bool
  | [], [] => false
  | [], _ :: _ => true
  | _ :: _, [] => false
  | a :: as, b :: bs => if a.val < b.val then true else if b.val < a.val then false else strLtB as bs

/-- Insertion step for sorting strings ascending. -/
def insStr (x : String) : List String → List String
  | [] => [x]
  | y :: ys => if strLtB x.toList y.toList then x :: y :: ys else y :: insStr x ys

/-- Sort a string list ascending (JS default `Array.prototype.sort`). -/
def sortStrs : List String → List String
  | [] => []
  | x :: xs => insStr x (sortStrs xs)

/-- Keep first occurrences only (JS `Set` construction). -/
def dedupStr (l : List String) : List String :=
  l.foldl (fun acc s => if acc.contains s then acc else acc ++ [s]) []

/-- `[...segs].sort().join(",")`: the canonical, order-independent cache-key component of
a segment set. -/
def canonSegs (segs : List Segment) : String :=
  String.intercalate "," (sortStrs (dedupStr (segs.map segName)))

/-- part_004 / snapshot.ts `snapKey`:
`bestsellers:v5:snapshot:last30:<sorted segs>:<limit>`. -/
def snapKey (segs : List Segment) (limit : Int) : String :=
  "bestsellers:v5:snapshot:last30:" ++ canonSegs segs ++ ":" ++ toString limit

/-- part_004 `liveKey`: `bestsellers:v5:live:<from>:<to>:<sorted segs>:<limit>`. -/
def liveKey (fromISO toISO : String) (segs : List Segment) (limit : Int) : String :=
  "bestsellers:v5:live:" ++ fromISO ++ ":" ++ toISO ++ ":" ++ canonSegs segs ++ ":" ++
    toString limit

/-- part_004 limit parsing: `Math.min(parseInt(url.searchParams.get("limit") || "16", 10), 60)`
(the `parseInt` outcome is the `Option Int` argument; absent parameter defaults to 16). -/
def queryLimit (limitReq : Option Int) : Int := min (limitReq.getD 16) 60

/-- snapshot.ts limit parsing: `Math.min(parseInt(url.searchParams.get("limit") || "100", 10), 100)`. -/
def snapLimit (limitReq : Option Int) : Int := min (limitReq.getD 100) 100

/- ===================== query parameter parsing (part_004 `parseSegments`) ===================== -/

/-- One iteration of the part_004 `parseSegments` loop body: the four independent `if`s
adding to the JS `Set` (first-insertion order, duplicates ignored). -/
def addSeg (s : List Segment) (g : Segment) : List Segment :=
  if s.contains g then s else s ++ [g]

/-- Fold the recognised-token tests over the cleaned token list. -/
def parseList (list : List String) : List Segment :=
  list.foldl
    (fun s v =>
      let s := if v = "man" || v = "hombre" then addSeg s .man else s
      let s := if v = "woman" || v = "mujer" then addSeg s .woman else s
      let s := if v = "teens" then addSeg s .teens else s
      let s := if v = "kids" || v = "niños" || v = "ninos" then addSeg s .kids else s
      s)
    []

/-- The cleaned token list of the `segments` parameter:
`multi.split(",").map(s => s.trim()).filter(Boolean)`. -/
def segTokens (multi : String) : List String :=
  ((strSplitComma (jsLowerStr multi)).map strTrim).filter (fun t => !(t == ""))

/-- The effective token list of part_004 `parseSegments`: the comma-separated `segments`
parameter wins; otherwise a single `segment` value other than `"all"`. -/
def segParamTokens (single multi : Option String) : List String :=
  let singleV := strTrim (jsLowerStr (single.getD ""))
  let multiV := jsLowerStr (multi.getD "")
  if !(multiV == "") then segTokens (multi.getD "")
  else if !(singleV == "") && !(singleV == "all") then [singleV]
  else []

/-- part_004 `parseSegments`: fold the recognised-token tests over the effective token
list; unrecognised tokens add nothing. -/
def parseSegmentsQ (single multi : Option String) : List Segment :=
  parseList (segParamTokens single multi)

/- ===================== part_004 loader (serve path) ===================== -/

/-- The cached/served response shape `{ handles, meta? }`. The `meta` record is modelled
by the fields the loader actually writes on served values (provenance/cache/stale/error
tags); purely diagnostic debug fields (shop domain, range, counters) are omitted. -/
structure Resp where
  handles : List String
  metaSource : Option String := none
  metaCache : Option String := none
  metaStale : Bool := false
  metaError : Option String := none
deriving DecidableEq, Repr

/-- Which code path produced the served response (the provenance the source exposes via
`meta.source` / `meta.cache` / the `X-Bestsellers-Source` header). -/
inductive Source where
  | snapshot | memory | redis | live | liveEmpty | stale | errorEmpty
deriving DecidableEq, Repr

/-- Request parameters of one part_004 query, after URL extraction: `limitReq` is the
`parseInt` result (`none` when the parameter is absent), `fromISO`/`toISO` are the
already-computed UTC day-boundary strings (date arithmetic is outside the claims). -/
structure QIn where
  limitReq : Option Int
  segmentParam : Option String
  segmentsParam : Option String
  debug : Bool
  nocache : Bool
  snapshotParam : Option String
  fromISO : String
  toISO : String

/-- External state of one part_004 request: the module-level memory cache (key ↦
insertion time, value), the shared Redis read (already decoded, see `redisGetDecode`
for the raw payload handling), the clock, the TTL, and the outcomes of the upstream
calls — `ordersRes` is the fully paginated order fetch (`none` = any smoke/page fetch
threw), `nodesRes` the handle-resolution call (`none` = it threw). -/
structure Env where
  mem : List (String × Nat × Resp)
  redisF : String → Option Resp
  now : Nat
  ttlSec : Nat
  ordersRes : Option (List Order)
  nodesRes : Option (String → Option String)

/-- What the loader produced: the served response, its provenance, and the cache writes
it performed. -/
structure LoaderOut where
  resp : Resp
  source : Source
  memWrites : List (String × Nat × Resp)
  redisWrites : List (String × Resp)
deriving Repr

/-- `mem.get(key)` with the TTL test `now - m.at < MEM_TTL * 1000`. -/
def memFresh (mem : List (String × Nat × Resp)) (key : String) (now ttlSec : Nat) :
    Option Resp :=
  match mem.find? (fun e => e.1 = key) with
  | some (_, at_, v) => if now - at_ < ttlSec * 1000 then some v else none
  | none => none

/-- `mem.get(key)?.value`, without any TTL test (the stale-fallback read). -/
def memAny (mem : List (String × Nat × Resp)) (key : String) : Option Resp :=
  (mem.find? (fun e => e.1 = key)).map (fun e => e.2.2)

/-- The resolved handle list of a successful live computation: rank, truncate, resolve
(`nodes` entries that are null are dropped, as are empty handles). -/
def liveHandles (segments : List Segment) (limit : Int) (orders : List Order)
    (handleOf : String → Option String) : List String :=
  let m := aggQ segments orders
  ((((sliceTo (sortDesc m) limit).map Prod.fst).filterMap handleOf).filter
    (fun h => !(h == "")))

/-- part_004 `catch` block: `mem.get(key)?.value || (await redisGet(key))`, served with a
`stale` tag under `debug`; with no prior value, the empty `live-failed` response.
(`unwrapMaybeWrapped` is the identity on the well-shaped `Resp` values this model's
caches hold; its behaviour on raw payloads is modelled separately by `redisGetDecode`.) -/
def catchPhase (env : Env) (q : QIn) (key : String) : LoaderOut :=
  match (memAny env.mem key).or (env.redisF key) with
  | some v =>
    { resp := if q.debug then { v with metaStale := true } else v,
      source := .stale, memWrites := [], redisWrites := [] }
  | none =>
    { resp := { handles := [], metaError := some "live-failed" },
      source := .errorEmpty, memWrites := [], redisWrites := [] }

/-- part_004 `try` block: smokes + paginated order fetch + aggregation; an empty
aggregation is cached and served as-is; otherwise rank/truncate/resolve, cache, serve.
Any thrown upstream call diverts to `catchPhase`. -/
def liveEntry (env : Env) (q : QIn) (key : String) (segments : List Segment)
    (limit : Int) : LoaderOut :=
  match env.ordersRes with
  | none => catchPhase env q key
  | some orders =>
    let m := aggQ segments orders
    if m.isEmpty then
      let r0 : Resp := { handles := [] }
      { resp := if q.debug then { r0 with metaSource := some "live-empty" } else r0,
        source := .liveEmpty,
        memWrites := [(key, env.now, r0)], redisWrites := [(key, r0)] }
    else
      match env.nodesRes with
      | none => catchPhase env q key
      | some handleOf =>
        let r : Resp :=
          { handles := liveHandles segments limit orders handleOf,
            metaSource := some "live" }
        { resp := r, source := .live,
          memWrites := [(key, env.now, r)], redisWrites := [(key, r)] }

/-- part_004 `loader` body after parameter extraction, with the parsed segment set made
explicit: snapshot layer first (unless `snapshot=0`), then — unless `nocache` — the
process-local and shared layers, then the live pipeline. -/
def loaderCore (env : Env) (q : QIn) (segments : List Segment) : LoaderOut :=
  let limit := queryLimit q.limitReq
  let snapHit :=
    if q.snapshotParam = some "0" then none else env.redisF (snapKey segments limit)
  match snapHit with
  | some snap =>
    { resp := if q.debug then { snap with metaSource := some "snapshot" } else snap,
      source := .snapshot, memWrites := [], redisWrites := [] }
  | none =>
    let key := liveKey q.fromISO q.toISO segments limit
    let memHit := if q.nocache then none else memFresh env.mem key env.now env.ttlSec
    match memHit with
    | some v =>
      { resp := if q.debug then { v with metaCache := some "memory" } else v,
        source := .memory, memWrites := [], redisWrites := [] }
    | none =>
      let redisHit := if q.nocache then none else env.redisF key
      match redisHit with
      | some r =>
        let tagged := if q.debug then { r with metaCache := some "redis" } else r
        { resp := tagged, source := .redis,
          memWrites := [(key, env.now, tagged)], redisWrites := [] }
      | none => liveEntry env q key segments limit

/-- part_004 `loader`: parse the segment parameters, then run the tiered pipeline. -/
def loader (env : Env) (q : QIn) : LoaderOut :=
  loaderCore env q (parseSegmentsQ q.segmentParam q.segmentsParam)

/- ===================== snapshot builder (snapshot.ts) ===================== -/

/-- `const SEGMENTS: Segment[] = ["man", "woman", "teens", "kids"]`. -/
def SEGMENTS : List Segment := [.man, .woman, .teens, .kids]

/-- The subset of `arr` selected by the bit mask. -/
def maskSubset (arr : List α) (mask : Nat) : List α :=
  (arr.enum).filterMap (fun ia => if mask.testBit ia.1 then some ia.2 else none)

/-- snapshot.ts `allCombinations`: masks from `start` to `2^n - 1`, then — when the empty
set is included — an extra `unshift(new Set())` (so the empty set appears twice: the
source prepends it although mask 0 already produced it). -/
def allCombinations (arr : List α) (includeEmpty : Bool) : List (List α) :=
  let n := arr.length
  let start := if includeEmpty then 0 else 1
  let out := ((List.range (2 ^ n)).drop start).map (maskSubset arr)
  if includeEmpty then [] :: out else out

/-- snapshot.ts secret gate: `!SNAPSHOT_SECRET || secret !== SNAPSHOT_SECRET` (an unset
or empty configured secret never authorises). -/
def authorizedSnap (secretEnv : Option String) (secretParam : String) : Bool :=
  match secretEnv with
  | none => false
  | some s => !(s == "") && (secretParam == s)

/-- Environment of one snapshot-builder run: the configured secret, the pages the
paginated order query returns for the fixed window (the do/while fetches one page per
entry), and the handle-resolution call. -/
structure SnapEnv where
  secretEnv : Option String
  pages : List (List Order)
  handleOf : String → Option String

/-- Observable outcome of a snapshot-builder run: HTTP-ish status, the summary flag, how
many upstream order pages were fetched, how many resolver calls were made, every Redis
write (key, payload), and the per-combination labels of the summary. -/
structure SnapOut where
  status : Nat
  ok : Bool
  orderFetches : Nat
  resolverCalls : Nat
  writes : List (String × Resp)
  labels : List String
deriving Repr

/-- snapshot.ts `buildAndSaveSnapshotFor` for one segment set over the pre-fetched line
items: returns the Redis write and the number of resolver calls it made (0 for an empty
aggregation, which writes the empty payload directly). -/
def buildAndSave (items : List (Nat × Product)) (segs : List Segment) (limit : Int)
    (handleOf : String → Option String) : (String × Resp) × Nat :=
  let m := aggSnap segs items
  let key := snapKey segs limit
  if m.isEmpty then
    ((key, { handles := [] }), 0)
  else
    let topIds := (sliceTo (sortDesc m) limit).map Prod.fst
    let handles := (topIds.filterMap handleOf).filter (fun h => !(h == ""))
    ((key, { handles := handles, metaSource := some "snapshot" }), 1)

/-- `[...s].join("+") || "all"` of each combination in the summary. -/
def comboLabel (segs : List Segment) : String :=
  let j := String.intercalate "+" (segs.map segName)
  if j = "" then "all" else j

/-- snapshot.ts `loader`: the secret gate precedes everything (an unauthorised run does
nothing); otherwise one paginated order scan materialises `allLineItems`, and every
segment combination is aggregated, resolved and written under its canonical snapshot
key. -/
def snapshotLoader (env : SnapEnv) (secretParam : String) (limitReq : Option Int) :
    SnapOut :=
  if !(authorizedSnap env.secretEnv secretParam) then
    { status := 401, ok := false, orderFetches := 0, resolverCalls := 0,
      writes := [], labels := [] }
  else
    let limit := snapLimit limitReq
    let items := collectItems env.pages.flatten
    let combos := allCombinations SEGMENTS true
    let results := combos.map (fun segs => buildAndSave items segs limit env.handleOf)
    { status := 200, ok := true,
      orderFetches := env.pages.length,
      resolverCalls := (results.map (fun r => r.2)).sum,
      writes := results.map (fun r => r.1),
      labels := combos.map comboLabel }

/- ===================== raw cache payload decoding (part_004 `redisGet`) ===================== -/

/-- A JS runtime value as far as `unwrapMaybeWrapped`/`redisGet` inspect it. A string is
classified by what `JSON.parse` would do to it: `vstrRaw` throws, `vstrJson v` yields
`v`. -/
inductive JSVal where
  | vnull
  | vbool (b : Bool)
  | vnum (n : Int)
  | vstrRaw
  | vstrJson (v : JSVal)
  | varr (elems : List JSVal)
  | vobj (fields : List (String × JSVal))

/-- What `JSON.parse` does to the raw string the store returned: throw, or produce a
value. -/
inductive StrParse where
  | notJson
  | json (v : JSVal)

/-- First field of the given name (JS property lookup on an object literal). -/
def lookupField (fields : List (String × JSVal)) (name : String) : Option JSVal :=
  (fields.find? (fun f => f.1 = name)).map (fun f => f.2)

/-- `Array.isArray((v as Resp).handles)` on an object's fields. -/
def hasHandlesArr (fields : List (String × JSVal)) : Bool :=
  match lookupField fields "handles" with
  | some (.varr _) => true
  | _ => false

/-- part_004 `unwrapMaybeWrapped`: a string is parsed (a parse failure is caught and
yields null); an object whose `value` is a string has that string parsed; an object
whose `handles` is an array is returned as-is; everything else yields null. The parsed
results are returned unvalidated (the `as Resp` cast). -/
def unwrapMaybeWrapped (v : JSVal) : Option JSVal :=
  match v with
  | .vstrRaw => none
  | .vstrJson u => some u
  | .vobj fields =>
    match lookupField fields "value" with
    | some .vstrRaw => none
    | some (.vstrJson u) => some u
    | _ => if hasHandlesArr fields then some (.vobj fields) else none
  | _ => none

/-- part_004 `redisGet` after transport: `result` absent/falsy is a miss; otherwise
`first = JSON.parse(result)`, a string `first` is parsed once more, and the outcome is
unwrapped — every parse failure is caught and served as a miss (`null`), never an
exception. -/
def redisGetDecode (result : Option StrParse) : Option JSVal :=
  match result with
  | none => none
  | some .notJson => none
  | some (.json first) =>
    match first with
    | .vstrRaw => none
    | .vstrJson u => unwrapMaybeWrapped u
    | v => unwrapMaybeWrapped v

/-- A value shaped like a cached response object: an object whose `handles` field is an
array and whose `value` field (if any) is not a string (so the defensive `value`
unwrapping does not fire on it). -/
def isRespShaped (v : JSVal) : Bool :=
  match v with
  | .vobj fields =>
    hasHandlesArr fields &&
      (match lookupField fields "value" with
       | some .vstrRaw => false
       | some (.vstrJson _) => false
       | _ => true)
  | _ => false

/- ===================== concrete instances used by counterexamples / witnesses ===================== -/

/-- A product whose only tag is `"teen"`: it matches the teens keyword heuristics and no
explicit gender tag. -/
def pTeenOnly : Product := { id := "p1", handle := "h1", tags := ["teen"], productType := "" }

/-- An order with a non-null cancellation timestamp holding one line item of quantity 3. -/
def cancelledOrder : Order :=
  { sourceName := none, cancelledAt := some "2025-09-01T10:00:00Z",
    lineItems := [{ quantity := 3,
                    product := some { id := "gid://shopify/Product/1", handle := "prod-1",
                                      tags := [], productType := "" } }] }

/-- A cached response with two handles, used as a pre-existing cache value. -/
def respAB : Resp := { handles := ["a", "b"] }

/-- Environment whose shared store holds a snapshot value for the all-segments key at
limit 16 and nothing else; the live pipeline would succeed with no orders. -/
def envSnapHit : Env :=
  { mem := [], redisF := fun k => if k = snapKey [] 16 then some respAB else none,
    now := 0, ttlSec := 900, ordersRes := some [], nodesRes := some (fun _ => none) }

/-- A `nocache` query with all other parameters at their defaults. -/
def qNocache : QIn :=
  { limitReq := none, segmentParam := none, segmentsParam := none, debug := false,
    nocache := true, snapshotParam := none, fromISO := "F", toISO := "T" }

/-- Environment with empty caches whose upstream order fetch throws. -/
def envUpErr : Env :=
  { mem := [], redisF := fun _ => none, now := 0, ttlSec := 900,
    ordersRes := none, nodesRes := none }

/-- Environment whose upstream order fetch throws but whose memory cache holds an
(expired) prior value for the default live key of `qPlain`. -/
def envUpErrStale : Env :=
  { mem := [("bestsellers:v5:live:F:T::16", 0, respAB)], redisF := fun _ => none,
    now := 1000000000, ttlSec := 900, ordersRes := none, nodesRes := none }

/-- A plain query: no segments, defaults everywhere. -/
def qPlain : QIn :=
  { limitReq := none, segmentParam := none, segmentsParam := none, debug := false,
    nocache := false, snapshotParam := none, fromISO := "F", toISO := "T" }

/-- One uncancelled online order with two line items for distinct products. -/
def plainOrder : Order :=
  { sourceName := some "web", cancelledAt := none,
    lineItems :=
      [{ quantity := 5, product := some { id := "gidA", handle := "prod-a", tags := [],
                                          productType := "" } },
       { quantity := 2, product := some { id := "gidB", handle := "prod-b", tags := [],
                                          productType := "" } }] }

/-- A resolver knowing the two products of `plainOrder`. -/
def resolveAB : String → Option String :=
  fun id => if id = "gidA" then some "prod-a"
            else if id = "gidB" then some "prod-b" else none

/-- Environment with empty caches and a successful live pipeline over `plainOrder`. -/
def envLive : Env :=
  { mem := [], redisF := fun _ => none, now := 0, ttlSec := 900,
    ordersRes := some [plainOrder], nodesRes := some resolveAB }

/-- Snapshot-builder environment with a correctly configured secret and one page of one
order. -/
def snapEnvOk : SnapEnv :=
  { secretEnv := some "sec", pages := [[plainOrder]],
    handleOf := fun id => if id = "gidA" then some "prod-a" else none }

/-- A query whose `segments` parameter holds only unrecognised tokens. -/
def qJunkSegs : QIn :=
  { limitReq := none, segmentParam := none, segmentsParam := some "foo, bar",
    debug := false, nocache := false, snapshotParam := none, fromISO := "F", toISO := "T" }

/-- A query whose single `segment` parameter holds one unrecognised token. -/
def qJunkSingle : QIn :=
  { limitReq := none, segmentParam := some "foo", segmentsParam := none,
    debug := false, nocache := false, snapshotParam := none, fromISO := "F", toISO := "T" }

/-- The recognised vocabulary of part_004 `parseSegments` (the token comparisons of its
loop body). -/
def segVocab : List String :=
  ["man", "hombre", "woman", "mujer", "teens", "kids", "niños", "ninos"]

/-- A minimal response-shaped JS value: `{ handles: [] }`. -/
def jsRespEmpty : JSVal := .vobj [("handles", .varr [])]

/- =============================== theorems =============================== -/

/-- C1 counterexample: a product tagged only `"teen"` (no explicit gender tag, matching
the teens keywords) is rejected by the part_004 query-route classifier for the requested
set {man, teens}, although the claim says it passes; the snapshot-builder classifier
accepts it. -/
theorem c1_counterexample :
    genderTagOf pTeenOnly.tags = none ∧
    okTokQ pTeenOnly TOKteens = true ∧
    passSegmentsQ pTeenOnly [Segment.man, Segment.teens] = false ∧
    passSegmentsSnap pTeenOnly [Segment.man, Segment.teens] = true := by decide

/-- C1 (amended): in the snapshot-builder classifier, a product without an explicit
`gender:` tag whose tokens match a requested teens or kids segment passes, regardless
of the outcome of the man/woman exclusivity test. (The query-route classifier instead
returns the man/woman exclusivity result directly whenever exactly one of man/woman is
requested, never consulting teens/kids — see the counterexample.) -/
theorem c1_teens_kids_or_snapshot (p : Product) (segments : List Segment)
    (hg : genderTagOf p.tags = none)
    (h : (segments.contains Segment.teens = true ∧ okTokSnap p TOKteens = true) ∨
         (segments.contains Segment.kids = true ∧ okTokSnap p TOKkids = true)) :
    passSegmentsSnap p segments = true := by
  cases segments with
  | nil => rcases h with ⟨hc, _⟩ | ⟨hc, _⟩ <;> simp at hc
  | cons a l =>
    simp only [passSegmentsSnap, List.isEmpty_cons, hg]
    split
    · rfl
    · rcases h with ⟨hc, ho⟩ | ⟨hc, ho⟩ <;> simp at hc <;> simp [ho] <;> tauto

/-- C1 witness: the amended theorem applied to the `"teen"`-tagged product and the
requested set {teens}. -/
theorem c1_witness :
    (genderTagOf pTeenOnly.tags = none ∧
      ([Segment.teens].contains Segment.teens = true ∧ okTokSnap pTeenOnly TOKteens = true)) ∧
    passSegmentsSnap pTeenOnly [Segment.teens] = true :=
  ⟨⟨by decide, by decide, by decide⟩,
    c1_teens_kids_or_snapshot pTeenOnly [Segment.teens] (by decide)
      (Or.inl ⟨by decide, by decide⟩)⟩

/-- A cancelled order contributes nothing to the api.bestsellers.ts aggregation step. -/
theorem aggChanStep_cancelled (segments : List SegA) (ch : String) (m : List (String × Nat))
    (o : Order) (h : o.cancelledAt.isSome = true) : aggChanStep segments ch m o = m := by
  simp [aggChanStep, h]

/-- C2 counterexample: an order with a non-null cancellation timestamp still contributes
its line-item quantity to the snapshot-builder aggregation (snapshot.ts) and to the
part_004 live aggregation — neither pipeline requests or consults `cancelledAt`. -/
theorem c2_counterexample :
    cancelledOrder.cancelledAt.isSome = true ∧
    aggSnap [] (collectItems [cancelledOrder]) = [("gid://shopify/Product/1", 3)] ∧
    aggQ [] [cancelledOrder] = [("gid://shopify/Product/1", 3)] := by decide

/-- C2 (amended): only the api.bestsellers.ts live pipeline excludes cancelled orders —
its aggregation over any order list equals the aggregation over the same list with the
cancelled orders removed, for every segment set and channel filter. -/
theorem c2_cancelled_excluded_in_channel_pipeline (segments : List SegA)
    (channelFilter : String) (orders : List Order) :
    aggChan segments channelFilter orders =
      aggChan segments channelFilter (orders.filter (fun o => o.cancelledAt.isNone)) := by
  show orders.foldl _ [] = (orders.filter _).foldl _ []
  generalize [] = m
  induction orders generalizing m with
  | nil => rfl
  | cons o rest ih =>
    by_cases hc : o.cancelledAt.isSome
    · have hn : (fun o : Order => o.cancelledAt.isNone) o = false := by
        cases h : o.cancelledAt <;> simp_all
      rw [List.foldl_cons, aggChanStep_cancelled _ _ _ _ hc, List.filter_cons_of_neg, ih]
      simp [hn]
    · have hn : (fun o : Order => o.cancelledAt.isNone) o = true := by
        cases h : o.cancelledAt <;> simp_all
      rw [List.foldl_cons, List.filter_cons_of_pos, List.foldl_cons, ih]
      simp [hn]

/-- The write produced for a segment set always lands under that set's canonical
snapshot key, whether or not its aggregation was empty. -/
theorem buildAndSave_key (items : List (Nat × Product)) (segs : List Segment)
    (limit : Int) (handleOf : String → Option String) :
    (buildAndSave items segs limit handleOf).1.1 = snapKey segs limit := by
  simp only [buildAndSave]
  split <;> rfl

/-- Every subset of the vocabulary, canonicalised, occurs among the canonical forms of
the combinations the builder enumerates (checked over all 16 subsets). -/
theorem canon_filter_mem :
    ∀ f : Segment → Bool,
      canonSegs (SEGMENTS.filter f) ∈ (allCombinations SEGMENTS true).map canonSegs := by
  decide

/-- C3: on an authorised snapshot-builder run, the upstream order window is fetched in
exactly one paginated scan (one page fetch per upstream page, independent of the
vocabulary size), and for every subset of the fixed segment vocabulary — the full power
set, the empty subset ("all") included — an aggregated, resolved result is written to
the snapshot layer under that subset's canonical key. -/
theorem c3_single_fetch_powerset (env : SnapEnv) (secretParam : String)
    (limitReq : Option Int) (h : authorizedSnap env.secretEnv secretParam = true) :
    (snapshotLoader env secretParam limitReq).orderFetches = env.pages.length ∧
    ∀ f : Segment → Bool, ∃ r : Resp,
      (snapKey (SEGMENTS.filter f) (snapLimit limitReq), r) ∈
        (snapshotLoader env secretParam limitReq).writes := by
  constructor
  · simp [snapshotLoader, h]
  · intro f
    obtain ⟨c, hc, hcanon⟩ := List.mem_map.mp (canon_filter_mem f)
    refine ⟨(buildAndSave (collectItems env.pages.flatten) c (snapLimit limitReq)
      env.handleOf).1.2, ?_⟩
    have hkey : snapKey (SEGMENTS.filter f) (snapLimit limitReq) =
        (buildAndSave (collectItems env.pages.flatten) c (snapLimit limitReq)
          env.handleOf).1.1 := by
      rw [buildAndSave_key]
      simp only [snapKey, hcanon]
    rw [hkey]
    simp only [snapshotLoader, h, Bool.not_true, Bool.false_eq_true, if_false]
    exact List.mem_map.mpr
      ⟨buildAndSave (collectItems env.pages.flatten) c (snapLimit limitReq) env.handleOf,
        List.mem_map.mpr ⟨c, hc, rfl⟩, rfl⟩

/-- C3 witness: the theorem applied to a run with the correct secret over one page. -/
theorem c3_witness :
    authorizedSnap snapEnvOk.secretEnv "sec" = true ∧
    ((snapshotLoader snapEnvOk "sec" none).orderFetches = snapEnvOk.pages.length ∧
     ∀ f : Segment → Bool, ∃ r : Resp,
       (snapKey (SEGMENTS.filter f) (snapLimit none), r) ∈
         (snapshotLoader snapEnvOk "sec" none).writes) :=
  ⟨by decide, c3_single_fetch_powerset snapEnvOk "sec" none (by decide)⟩

/-- Reduction of the part_004 loader to its live phase: when the snapshot layer is
disabled or misses, and the process-local and shared lookups are skipped (`nocache`) or
miss, the pipeline proceeds to the live computation. -/
theorem loader_reaches_live (env : Env) (q : QIn) (segments : List Segment) (limit : Int)
    (key : String)
    (hseg : segments = parseSegmentsQ q.segmentParam q.segmentsParam)
    (hlim : limit = queryLimit q.limitReq)
    (hkey : key = liveKey q.fromISO q.toISO segments limit)
    (hsnap : q.snapshotParam = some "0" ∨ env.redisF (snapKey segments limit) = none)
    (hmem : q.nocache = true ∨ memFresh env.mem key env.now env.ttlSec = none)
    (hred : q.nocache = true ∨ env.redisF key = none) :
    loader env q = liveEntry env q key segments limit := by
  subst hseg hlim hkey
  have h1 : (if q.snapshotParam = some "0" then none
      else env.redisF (snapKey (parseSegmentsQ q.segmentParam q.segmentsParam)
        (queryLimit q.limitReq))) = none := by
    rcases hsnap with h | h
    · rw [if_pos h]
    · split
      · rfl
      · exact h
  have h2 : (if q.nocache then none
      else memFresh env.mem (liveKey q.fromISO q.toISO
        (parseSegmentsQ q.segmentParam q.segmentsParam) (queryLimit q.limitReq))
        env.now env.ttlSec) = none := by
    rcases hmem with h | h
    · simp [h]
    · cases hn : q.nocache <;> simp [hn, h]
  have h3 : (if q.nocache then none
      else env.redisF (liveKey q.fromISO q.toISO
        (parseSegmentsQ q.segmentParam q.segmentsParam) (queryLimit q.limitReq))) = none := by
    rcases hred with h | h
    · simp [h]
    · cases hn : q.nocache <;> simp [hn, h]
  simp only [loader, loaderCore, h1, h2, h3]

/-- C4: when the live computation raises an upstream error, the query returns the prior
value under the same key from the process-local or shared layer (tagged stale — the
provenance tag is surfaced under `debug`, like all diagnostic metadata), and with no
prior value it returns an empty handle list — in neither case a hard error. -/
theorem c4_stale_then_empty (env : Env) (q : QIn) (segments : List Segment) (limit : Int)
    (key : String)
    (hseg : segments = parseSegmentsQ q.segmentParam q.segmentsParam)
    (hlim : limit = queryLimit q.limitReq)
    (hkey : key = liveKey q.fromISO q.toISO segments limit)
    (hsnap : q.snapshotParam = some "0" ∨ env.redisF (snapKey segments limit) = none)
    (hmem : q.nocache = true ∨ memFresh env.mem key env.now env.ttlSec = none)
    (hred : q.nocache = true ∨ env.redisF key = none)
    (horr : env.ordersRes = none) :
    (∀ v, (memAny env.mem key).or (env.redisF key) = some v →
        (loader env q).source = .stale ∧
        (loader env q).resp = (if q.debug then { v with metaStale := true } else v)) ∧
    ((memAny env.mem key).or (env.redisF key) = none →
        (loader env q).source = .errorEmpty ∧ (loader env q).resp.handles = []) := by
  rw [loader_reaches_live env q segments limit key hseg hlim hkey hsnap hmem hred]
  simp only [liveEntry, horr]
  constructor
  · intro v hv
    simp [catchPhase, hv]
  · intro hnone
    simp [catchPhase, hnone]

/-- C4 witness: the theorem applied to an upstream failure with an expired prior value
in the process-local cache, which the loader serves. -/
theorem c4_witness :
    envUpErrStale.ordersRes = none ∧
    ((∀ v, (memAny envUpErrStale.mem "bestsellers:v5:live:F:T::16").or
          (envUpErrStale.redisF "bestsellers:v5:live:F:T::16") = some v →
        (loader envUpErrStale qPlain).source = .stale ∧
        (loader envUpErrStale qPlain).resp =
          (if qPlain.debug then { v with metaStale := true } else v)) ∧
     ((memAny envUpErrStale.mem "bestsellers:v5:live:F:T::16").or
          (envUpErrStale.redisF "bestsellers:v5:live:F:T::16") = none →
        (loader envUpErrStale qPlain).source = .errorEmpty ∧
        (loader envUpErrStale qPlain).resp.handles = [])) :=
  ⟨rfl, c4_stale_then_empty envUpErrStale qPlain [] 16 "bestsellers:v5:live:F:T::16"
    (by decide) (by decide) (by decide) (Or.inr (by decide)) (Or.inr (by decide))
    (Or.inr (by decide)) rfl⟩

/-- C5 counterexample: with `nocache=1` (and the snapshot preference at its default),
a snapshot-layer hit still supplies the served value — the returned response is the
cached snapshot, not the product of the live computation. -/
theorem c5_counterexample :
    qNocache.nocache = true ∧
    (loader envSnapHit qNocache).source = Source.snapshot ∧
    (loader envSnapHit qNocache).resp = respAB := by decide

/-- Slicing the empty ranking is empty for any end index. -/
theorem sliceTo_nil (limit : Int) : sliceTo ([] : List (String × Nat)) limit = [] := by
  unfold sliceTo
  split <;> simp

/-- An empty aggregation yields an empty resolved handle list. -/
theorem liveHandles_of_nil (segments : List Segment) (limit : Int) (orders : List Order)
    (handleOf : String → Option String) (h : aggQ segments orders = []) :
    liveHandles segments limit orders handleOf = [] := by
  unfold liveHandles
  rw [h]
  show ((((sliceTo (sortDesc []) limit).map Prod.fst).filterMap handleOf).filter _) = []
  rw [show sortDesc [] = [] from rfl, sliceTo_nil]
  rfl

/-- C5 (amended): `nocache` skips the process-local and shared live-key lookups, so when
additionally the snapshot layer is disabled or misses and the upstream calls succeed,
the served response is the live computation's result. (It does not bypass the snapshot
layer, nor the stale-on-error fallback — see the counterexample.) -/
theorem c5_nocache_bypasses_shared_layers (env : Env) (q : QIn) (segments : List Segment)
    (limit : Int) (orders : List Order) (handleOf : String → Option String)
    (hseg : segments = parseSegmentsQ q.segmentParam q.segmentsParam)
    (hlim : limit = queryLimit q.limitReq)
    (hn : q.nocache = true)
    (hsnap : q.snapshotParam = some "0" ∨ env.redisF (snapKey segments limit) = none)
    (ho : env.ordersRes = some orders)
    (hh : env.nodesRes = some handleOf) :
    ((loader env q).source = .live ∨ (loader env q).source = .liveEmpty) ∧
    (loader env q).resp.handles = liveHandles segments limit orders handleOf := by
  rw [loader_reaches_live env q segments limit
    (liveKey q.fromISO q.toISO segments limit) hseg hlim rfl hsnap (Or.inl hn) (Or.inl hn)]
  simp only [liveEntry, ho, hh]
  split
  · rename_i hm
    have hnil : aggQ segments orders = [] := by
      cases hagg : aggQ segments orders
      · rfl
      · rw [hagg] at hm; simp at hm
    rw [liveHandles_of_nil segments limit orders handleOf hnil]
    refine ⟨Or.inr rfl, ?_⟩
    cases hd : q.debug <;> simp [hd]
  · exact ⟨Or.inl rfl, rfl⟩

/-- C5 witness: the amended theorem applied to a `nocache` query against empty caches
and a successful live pipeline. -/
theorem c5_witness :
    qNocache.nocache = true ∧
    (((loader envLive qNocache).source = .live ∨
        (loader envLive qNocache).source = .liveEmpty) ∧
     (loader envLive qNocache).resp.handles = liveHandles [] 16 [plainOrder] resolveAB) :=
  ⟨rfl, c5_nocache_bypasses_shared_layers envLive qNocache [] 16 [plainOrder] resolveAB
    (by decide) (by decide) rfl (Or.inr (by decide)) rfl rfl⟩

/-- C6 counterexample: the snapshot entry point's limit defaults to 100 while the query
entry point's defaults to 16, so the snapshot default is not smaller than the query
default as claimed. -/
theorem c6_counterexample :
    snapLimit none = 100 ∧ queryLimit none = 16 ∧ ¬(snapLimit none < queryLimit none) := by
  decide

/-- C6 (amended): the snapshot entry point's limit is capped at the fixed maximum 100,
and its default (100) is larger than the query entry point's default (16). -/
theorem c6_limits :
    (∀ p : Option Int, snapLimit p ≤ 100) ∧ snapLimit none = 100 ∧ queryLimit none = 16 ∧
      queryLimit none < snapLimit none :=
  ⟨fun _ => min_le_right _ _, by decide, by decide, by decide⟩

/-- C7: a snapshot-builder invocation whose secret does not exactly match the configured
secret (an unset or empty configured secret included) returns Unauthorized immediately
with zero upstream page fetches, zero resolver calls and zero cache writes. -/
theorem c7_unauthorized_no_side_effects (env : SnapEnv) (secretParam : String)
    (limitReq : Option Int) (h : authorizedSnap env.secretEnv secretParam = false) :
    snapshotLoader env secretParam limitReq =
      { status := 401, ok := false, orderFetches := 0, resolverCalls := 0,
        writes := [], labels := [] } := by
  simp [snapshotLoader, h]

/-- C7 witness: the theorem applied to a wrong secret against a configured builder. -/
theorem c7_witness :
    authorizedSnap snapEnvOk.secretEnv "wrong" = false ∧
    snapshotLoader snapEnvOk "wrong" none =
      { status := 401, ok := false, orderFetches := 0, resolverCalls := 0,
        writes := [], labels := [] } :=
  ⟨by decide, c7_unauthorized_no_side_effects snapEnvOk "wrong" none (by decide)⟩

/-- The defensive unwrap returns a response-shaped object unchanged. -/
theorem unwrap_respShaped (v : JSVal) (h : isRespShaped v = true) :
    unwrapMaybeWrapped v = some v := by
  cases v with
  | vobj fields =>
    simp only [isRespShaped, Bool.and_eq_true] at h
    obtain ⟨hh, hv⟩ := h
    simp only [unwrapMaybeWrapped]
    split
    · rename_i heq; rw [heq] at hv; simp at hv
    · rename_i heq; rw [heq] at hv; simp at hv
    · simp [hh]
  | vnull => simp [isRespShaped] at h
  | vbool b => simp [isRespShaped] at h
  | vnum n => simp [isRespShaped] at h
  | vstrRaw => simp [isRespShaped] at h
  | vstrJson u => simp [isRespShaped] at h
  | varr l => simp [isRespShaped] at h

/-- C8 counterexample: a stored payload parsing to `{ value: "5" }` is neither a once-
nor a twice-JSON-encoded response object (it has no `handles` array), yet the read does
not treat it as a miss — the `value` string is parsed and its result, the number 5, is
returned unvalidated (the `as Resp` cast checks nothing). -/
theorem c8_counterexample :
    isRespShaped (JSVal.vobj [("value", .vstrJson (.vnum 5))]) = false ∧
    isRespShaped (JSVal.vnum 5) = false ∧
    redisGetDecode (some (.json (.vobj [("value", .vstrJson (.vnum 5))]))) =
      some (.vnum 5) ∧
    (redisGetDecode (some (.json (.vobj [("value", .vstrJson (.vnum 5))])))).isSome =
      true :=
  ⟨by decide, by decide, rfl, by decide⟩

/-- C8 (amended): the shared-store read never raises — it is a total function into an
optional value. A stored payload that is a once- or twice-JSON-encoded response object
decodes to that response object, and an unparseable or absent payload is served as a
cache miss (null); but not every other payload is a miss: an object payload whose
`value` field is a parseable string decodes to that string's parse result, unvalidated
(the `as Resp` cast of the source checks nothing) — see the counterexample. -/
theorem c8_redis_decode (v : JSVal) (h : isRespShaped v = true) :
    redisGetDecode (some (.json v)) = some v ∧
    redisGetDecode (some (.json (.vstrJson v))) = some v ∧
    redisGetDecode (some .notJson) = none ∧
    redisGetDecode none = none ∧
    (∀ u : JSVal,
      redisGetDecode (some (.json (.vobj [("value", .vstrJson u)]))) = some u) := by
  refine ⟨?_, ?_, rfl, rfl, fun u => rfl⟩
  · have hu := unwrap_respShaped v h
    cases v <;> simp_all [redisGetDecode, isRespShaped]
  · simpa [redisGetDecode] using unwrap_respShaped v h

/-- C8 witness: the theorem applied to the minimal response object `{ handles: [] }`. -/
theorem c8_witness :
    isRespShaped jsRespEmpty = true ∧
    (redisGetDecode (some (.json jsRespEmpty)) = some jsRespEmpty ∧
     redisGetDecode (some (.json (.vstrJson jsRespEmpty))) = some jsRespEmpty ∧
     redisGetDecode (some .notJson) = none ∧
     redisGetDecode none = none ∧
     (∀ u : JSVal,
       redisGetDecode (some (.json (.vobj [("value", .vstrJson u)]))) = some u)) :=
  ⟨by decide, c8_redis_decode jsRespEmpty (by decide)⟩

/-- The resolved handle list of a live computation never exceeds the (non-negative)
effective limit: each of filter, resolution and ranking truncation can only shrink it. -/
theorem liveHandles_length_le (segments : List Segment) (limit : Int) (orders : List Order)
    (handleOf : String → Option String) (h : 0 ≤ limit) :
    (liveHandles segments limit orders handleOf).length ≤ limit.toNat := by
  unfold liveHandles
  refine le_trans (List.length_filter_le _ _) (le_trans (List.length_filterMap_le _ _) ?_)
  rw [List.length_map]
  unfold sliceTo
  rw [if_pos h]
  exact List.length_take_le _ _

/-- C9: on a live computation with a positive requested limit, the served handle list
has length at most that limit; and when no line item survives filtering, the result is
the empty handle list, written to both the process-local and shared layers and served
normally (never an error). -/
theorem c9_limit_and_empty (env : Env) (q : QIn) (segments : List Segment) (limit : Int)
    (key : String) (orders : List Order) (handleOf : String → Option String)
    (hseg : segments = parseSegmentsQ q.segmentParam q.segmentsParam)
    (hlim : limit = queryLimit q.limitReq)
    (hkey : key = liveKey q.fromISO q.toISO segments limit)
    (hsnap : q.snapshotParam = some "0" ∨ env.redisF (snapKey segments limit) = none)
    (hmem : q.nocache = true ∨ memFresh env.mem key env.now env.ttlSec = none)
    (hred : q.nocache = true ∨ env.redisF key = none)
    (ho : env.ordersRes = some orders)
    (hh : env.nodesRes = some handleOf)
    (hpos : 0 < q.limitReq.getD 16) :
    (loader env q).resp.handles.length ≤ (q.limitReq.getD 16).toNat ∧
    (aggQ segments orders = [] →
      (loader env q).resp.handles = [] ∧
      (loader env q).source = .liveEmpty ∧
      (loader env q).memWrites = [(key, env.now, { handles := [] })] ∧
      (loader env q).redisWrites = [(key, ({ handles := [] } : Resp))]) := by
  have hlimpos : (0 : Int) < limit := by
    rw [hlim]
    exact lt_min hpos (by norm_num)
  rw [loader_reaches_live env q segments limit key hseg hlim hkey hsnap hmem hred]
  simp only [liveEntry, ho, hh]
  split
  · rename_i hm
    constructor
    · cases hd : q.debug <;> simp [hd]
    · intro _
      refine ⟨?_, rfl, rfl, rfl⟩
      cases hd : q.debug <;> simp [hd]
  · rename_i hm
    constructor
    · refine le_trans (liveHandles_length_le segments limit orders handleOf
        (le_of_lt hlimpos)) ?_
      rw [hlim]
      exact Int.toNat_le_toNat (min_le_left _ _)
    · intro hnil
      rw [hnil] at hm
      simp at hm

/-- C9 witness: the theorem applied to the default query over one two-item order. -/
theorem c9_witness :
    0 < (qPlain.limitReq.getD 16) ∧
    ((loader envLive qPlain).resp.handles.length ≤ (qPlain.limitReq.getD 16).toNat ∧
     (aggQ [] [plainOrder] = [] →
       (loader envLive qPlain).resp.handles = [] ∧
       (loader envLive qPlain).source = .liveEmpty ∧
       (loader envLive qPlain).memWrites =
         [("bestsellers:v5:live:F:T::16", envLive.now, { handles := [] })] ∧
       (loader envLive qPlain).redisWrites =
         [("bestsellers:v5:live:F:T::16", ({ handles := [] } : Resp))])) :=
  ⟨by decide, c9_limit_and_empty envLive qPlain [] 16 "bestsellers:v5:live:F:T::16"
    [plainOrder] resolveAB (by decide) (by decide) (by decide) (Or.inr (by decide))
    (Or.inr (by decide)) (Or.inr (by decide)) rfl rfl (by decide)⟩

/-- A token list containing no recognised vocabulary word adds no segment. -/
theorem parseList_unrecognized (l : List String)
    (h : ∀ t ∈ l, t ∉ segVocab) : parseList l = [] := by
  unfold parseList
  generalize ([] : List Segment) = acc
  induction l generalizing acc with
  | nil => rfl
  | cons t rest ih =>
    have ht := h t (by simp)
    simp only [segVocab, List.mem_cons, List.mem_singleton] at ht
    push_neg at ht
    obtain ⟨h1, h2, h3, h4, h5, h6, h7, h8⟩ := ht
    rw [List.foldl_cons]
    simp only [h1, h2, h3, h4, h5, h6, h7, h8, decide_False, Bool.or_self, Bool.or_false,
      Bool.false_eq_true, if_false]
    exact ih (fun x hx => h x (List.mem_cons_of_mem _ hx)) acc

/-- A parameter pair whose effective tokens are all outside the vocabulary parses to
the empty segment set (covers both the `segments` list and the single `segment` form). -/
theorem parseSegmentsQ_unrecognized (single multi : Option String)
    (htok : ∀ t ∈ segParamTokens single multi, t ∉ segVocab) :
    parseSegmentsQ single multi = [] :=
  parseList_unrecognized _ htok

/-- C10: a query whose `segment` or `segments` parameter holds only tokens outside the
recognised vocabulary parses to the empty segment set, so it is served exactly as the
unfiltered "all" request (the loader's outcome coincides with the empty-segment-set
pipeline) — not as an empty result and not as an error. -/
theorem c10_unrecognized_serves_all (env : Env) (q : QIn)
    (htok : ∀ t ∈ segParamTokens q.segmentParam q.segmentsParam, t ∉ segVocab) :
    parseSegmentsQ q.segmentParam q.segmentsParam = [] ∧
    loader env q = loaderCore env q [] := by
  have hp := parseSegmentsQ_unrecognized q.segmentParam q.segmentsParam htok
  exact ⟨hp, by rw [loader, hp]⟩

/-- C10 witness: the theorem applied to `segments=foo, bar` and to `segment=foo`. -/
theorem c10_witness :
    ((∀ t ∈ segParamTokens qJunkSegs.segmentParam qJunkSegs.segmentsParam, t ∉ segVocab) ∧
      (parseSegmentsQ qJunkSegs.segmentParam qJunkSegs.segmentsParam = [] ∧
       loader envLive qJunkSegs = loaderCore envLive qJunkSegs [])) ∧
    ((∀ t ∈ segParamTokens qJunkSingle.segmentParam qJunkSingle.segmentsParam,
        t ∉ segVocab) ∧
      (parseSegmentsQ qJunkSingle.segmentParam qJunkSingle.segmentsParam = [] ∧
       loader envLive qJunkSingle = loaderCore envLive qJunkSingle [])) :=
  ⟨⟨by decide, c10_unrecognized_serves_all envLive qJunkSegs (by decide)⟩,
   ⟨by decide, c10_unrecognized_serves_all envLive qJunkSingle (by decide)⟩⟩
